import Mathlib

/-!
# Notification decision engine — shallow embedding

This file embeds the notification decision engine of
`src/utils/notificationDecisionEngine.ts` and proves the specified
properties about it.

Modelling conventions:

* Instants are modelled as `Int` minutes since a local epoch.  Every time the
  engine constructs or compares is produced by minute-level arithmetic
  (`setHours(h, m, 0, 0)` zeroes seconds and milliseconds, and every offset
  used by the engine is a whole number of minutes), so minute resolution is
  exact for the engine's computations.  Days have a fixed length of 1440
  minutes; `setDate(getDate() + 1)` adds one day, i.e. 1440 minutes.
  Floor division by 1440 (`Int./`, Euclidean division with a positive
  divisor) recovers the calendar day, matching JavaScript local-time
  decomposition for all instants, negative included.
* The profile's `work_hours_start` / `work_hours_end` strings are taken
  already parsed into an hour/minute pair (`HM`), the result of the source's
  `split(':').map(Number)`.
* `Date.prototype.sort` with the comparator `a.time - b.time` is a stable
  ascending sort; it is modelled by the stable insertion sort `sortByTime`.
* TypeScript string-literal union types (`type`, `priority` of a scheduled
  notification) are modelled by closed inductive types; plain `string`
  fields (`status`, `priority`, `category` of a task) stay `String`.
* `estimated_duration?: number | null` is `Option Int`; JavaScript's falsy
  test `!durationMinutes` is true for `none` and for `some 0`.
-/

namespace NotificationEngine

/-- Minutes in one local day. -/
def minutesPerDay : Int := 1440

/-- Calendar day of an instant (floor division, as JavaScript local time). -/
def dayOf (t : Int) : Int := t / 1440

/-- Minute of the day of an instant, in `[0, 1440)`. -/
def minuteOfDay (t : Int) : Int := t % 1440

/-- `getHours()` of an instant. -/
def hourOf (t : Int) : Int := minuteOfDay t / 60

/-- `getMinutes()` of an instant. -/
def minuteOf (t : Int) : Int := minuteOfDay t % 60

/-- `d.setHours(h, m, 0, 0)`: same calendar day, time-of-day `h:m`
(hour overflow rolls into neighbouring days, as in JavaScript). -/
def setHM (t h m : Int) : Int := dayOf t * 1440 + h * 60 + m

/-- `d.setHours(0, 0, 0, 0)`: midnight of the instant's day. -/
def startOfDay (t : Int) : Int := dayOf t * 1440

/-- A parsed `"HH:MM"` time-of-day, the result of `split(':').map(Number)`. -/
structure HM where
  hour : Int
  minute : Int
deriving DecidableEq

/-- The engine's `Task` input record. -/
structure Task where
  id : String
  title : String
  due_date : Option Int
  status : String
  priority : String
  estimated_duration : Option Int
  category : Option String
deriving DecidableEq

/-- The engine's `UserProfile` input record. -/
structure UserProfile where
  work_hours_start : HM
  work_hours_end : HM
  peak_energy_time : Option String
deriving DecidableEq

/-- The `type` union of a scheduled notification. -/
inductive NotifType where
  | advanceNotice
  | reminder
  | finalReminder
  | overdue
  | dailySummary
deriving DecidableEq

/-- The `priority` union of a scheduled notification. -/
inductive NotifPriority where
  | high
  | medium
  | low
deriving DecidableEq

/-- The engine's `ScheduledNotificationTime` output record. -/
structure ScheduledNotificationTime where
  time : Int
  reason : String
  type : NotifType
  priority : NotifPriority
deriving DecidableEq

/-- The engine's `NotificationSchedule` output record. -/
structure NotificationSchedule where
  taskId : String
  taskTitle : String
  notifications : List ScheduledNotificationTime
deriving DecidableEq

/-- `hasSpecificTime`: a due date carries a specific time unless it is
exactly midnight. -/
def hasSpecificTime (dueDate : Int) : Bool :=
  !(hourOf dueDate == 0 && minuteOf dueDate == 0)

/-- The peak-energy hour window. -/
structure PeakHours where
  start : Int
  stop : Int
deriving DecidableEq

/-- `getPeakEnergyHours`: fixed hour ranges per preference, defaulting to
`{ start := 9, stop := 12 }`. -/
def getPeakEnergyHours (preference : Option String) : PeakHours :=
  if preference = some "morning" then ⟨8, 12⟩
  else if preference = some "afternoon" then ⟨12, 17⟩
  else if preference = some "evening" then ⟨17, 21⟩
  else ⟨9, 12⟩

/-- `getLeadTimeForDuration`: lead time in minutes before the due instant.
`!durationMinutes` is JavaScript falsiness: `none` or `some 0`. -/
def getLeadTimeForDuration (durationMinutes : Option Int) : Int :=
  match durationMinutes with
  | none => 15
  | some d =>
    if d = 0 then 15
    else if d ≥ 120 then 30
    else if d ≥ 60 then 20
    else if d ≤ 30 then 10
    else 15

/-- `isWithinWorkHours` (defined in the source, not used by the engine). -/
def isWithinWorkHours (date : Int) (profile : UserProfile) : Bool :=
  let startValue := profile.work_hours_start.hour * 60 + profile.work_hours_start.minute
  let endValue := profile.work_hours_end.hour * 60 + profile.work_hours_end.minute
  let timeValue := hourOf date * 60 + minuteOf date
  timeValue ≥ startValue && timeValue ≤ endValue

/-- `adjustToWorkHours`: for work tasks, snap an instant whose hour is before
`work_hours_start`'s hour forward to the start time-of-day, and one whose
hour is after `work_hours_end`'s hour back to the end time-of-day. -/
def adjustToWorkHours (date : Int) (profile : UserProfile) (isWorkTask : Bool) : Int :=
  if !isWorkTask then date
  else
    let hour := hourOf date
    if hour < profile.work_hours_start.hour then
      setHM date profile.work_hours_start.hour profile.work_hours_start.minute
    else if hour > profile.work_hours_end.hour then
      setHM date profile.work_hours_end.hour profile.work_hours_end.minute
    else date

/-- Stable insertion of a notification into a list ascending by `time`
(strictly-later elements are passed over, ties keep the incoming element
first, i.e. original order). -/
def insertSorted (n : ScheduledNotificationTime) :
    List ScheduledNotificationTime → List ScheduledNotificationTime
  | [] => [n]
  | m :: rest => if n.time ≤ m.time then n :: m :: rest else m :: insertSorted n rest

/-- Stable ascending sort by `time`, modelling
`notifications.sort((a, b) => a.time.getTime() - b.time.getTime())`. -/
def sortByTime : List ScheduledNotificationTime → List ScheduledNotificationTime
  | [] => []
  | n :: rest => insertSorted n (sortByTime rest)

/-- `calculateNotificationSchedule`, with the source's ambient `new Date()`
made an explicit `now` parameter. -/
def calculateNotificationSchedule (task : Task) (profile : UserProfile)
    (existingOverdueReminders : Nat) (now : Int) : NotificationSchedule :=
  let isWorkTask : Bool := task.category == some "work"
  -- No notifications for completed tasks
  if task.status = "completed" then ⟨task.id, task.title, []⟩
  -- LOW PRIORITY: No automatic notifications
  else if task.priority = "low" then ⟨task.id, task.title, []⟩
  else
    match task.due_date with
    | none =>
      -- No due date handling
      let notifications :=
        if task.priority = "high" then
          let peakHours := getPeakEnergyHours profile.peak_energy_time
          let reminderTime := setHM (now + minutesPerDay) peakHours.start 0
          if isWorkTask then
            let adjustedTime := adjustToWorkHours reminderTime profile true
            if adjustedTime > now then
              [⟨adjustedTime, "High priority task without deadline - peak energy reminder",
                NotifType.dailySummary, NotifPriority.high⟩]
            else []
          else []
        else []
      ⟨task.id, task.title, notifications⟩
    | some dueDate =>
      let dueDateStart := startOfDay dueDate
      let todayStart := startOfDay now
      let isOverdue := dueDateStart < todayStart
      let isDueToday := dueDateStart = todayStart
      let specificTime := hasSpecificTime dueDate
      if isOverdue then
        -- OVERDUE TASK HANDLING
        let notifications :=
          if task.priority = "high" then
            -- High priority overdue: every 4 hours, max 3 per day
            if existingOverdueReminders < 3 then
              let nextReminder := now + 4 * 60
              let adjustedReminder := adjustToWorkHours nextReminder profile isWorkTask
              if adjustedReminder > now then
                [⟨adjustedReminder,
                  "Overdue high priority - reminder " ++
                    toString (existingOverdueReminders + 1) ++ " of 3",
                  NotifType.overdue, NotifPriority.high⟩]
              else []
            else []
          else if task.priority = "medium" then
            -- Medium priority overdue: one reminder per day at 9am
            let reminderTime := setHM now 9 0
            let reminderTime := if reminderTime ≤ now then reminderTime + minutesPerDay
              else reminderTime
            [⟨reminderTime, "Overdue medium priority - daily reminder",
              NotifType.overdue, NotifPriority.medium⟩]
          else []
        ⟨task.id, task.title, notifications⟩
      else
        -- HIGH PRIORITY NOTIFICATIONS
        let highNotifs :=
          if task.priority = "high" then
            let leadTime := getLeadTimeForDuration task.estimated_duration
            if specificTime then
              -- 1. 24 hours before
              let twentyFourHoursBefore := dueDate - 24 * 60
              let n1 :=
                if twentyFourHoursBefore > now then
                  [(⟨adjustToWorkHours twentyFourHoursBefore profile isWorkTask,
                    "24hr advance notice for high priority",
                    NotifType.advanceNotice, NotifPriority.high⟩ : ScheduledNotificationTime)]
                else []
              -- 2. 2 hours before
              let twoHoursBefore := dueDate - 2 * 60
              let n2 :=
                if twoHoursBefore > now then
                  [(⟨adjustToWorkHours twoHoursBefore profile isWorkTask,
                    "2hr reminder before scheduled time",
                    NotifType.reminder, NotifPriority.high⟩ : ScheduledNotificationTime)]
                else []
              -- 3. 15 min (or adjusted for duration) before
              let finalReminder := dueDate - leadTime
              let n3 :=
                if finalReminder > now then
                  [(⟨finalReminder, toString leadTime ++ "min final reminder",
                    NotifType.finalReminder, NotifPriority.high⟩ : ScheduledNotificationTime)]
                else []
              n1 ++ n2 ++ n3
            else
              -- Date only: notify at 9am, 2pm, 6pm on that day
              let mk9 := setHM dueDate 9 0
              let n9 :=
                if mk9 > now then
                  let adjusted := adjustToWorkHours mk9 profile isWorkTask
                  -- Only add if still in future after adjustment
                  if adjusted > now then
                    [(⟨adjusted, "High priority due date - morning reminder",
                      NotifType.reminder, NotifPriority.high⟩ : ScheduledNotificationTime)]
                  else []
                else []
              let mk14 := setHM dueDate 14 0
              let n14 :=
                if mk14 > now then
                  let adjusted := adjustToWorkHours mk14 profile isWorkTask
                  if adjusted > now then
                    [(⟨adjusted, "High priority due date - afternoon reminder",
                      NotifType.reminder, NotifPriority.high⟩ : ScheduledNotificationTime)]
                  else []
                else []
              let mk18 := setHM dueDate 18 0
              let n18 :=
                if mk18 > now then
                  let adjusted := adjustToWorkHours mk18 profile isWorkTask
                  if adjusted > now then
                    [(⟨adjusted, "High priority due date - evening reminder",
                      NotifType.reminder, NotifPriority.high⟩ : ScheduledNotificationTime)]
                  else []
                else []
              -- Also add 24hr advance if due date is tomorrow or later
              let twentyFourHoursBefore := setHM (dueDate - 24 * 60) 9 0
              let nAdv :=
                if twentyFourHoursBefore > now ∧ ¬ isDueToday then
                  [(⟨twentyFourHoursBefore, "24hr advance notice for high priority",
                    NotifType.advanceNotice, NotifPriority.high⟩ : ScheduledNotificationTime)]
                else []
              n9 ++ n14 ++ n18 ++ nAdv
          else []
        -- MEDIUM PRIORITY NOTIFICATIONS
        let mediumNotifs :=
          if task.priority = "medium" then
            if specificTime then
              -- Single notification 2 hours before
              let twoHoursBefore := dueDate - 2 * 60
              if twoHoursBefore > now then
                [(⟨adjustToWorkHours twoHoursBefore profile isWorkTask,
                  "2hr reminder for medium priority task",
                  NotifType.reminder, NotifPriority.medium⟩ : ScheduledNotificationTime)]
              else []
            else
              -- One reminder at 9am on the due date
              let reminderTime := setHM dueDate 9 0
              if reminderTime > now then
                let adjusted := adjustToWorkHours reminderTime profile isWorkTask
                if adjusted > now then
                  [(⟨adjusted, "Medium priority due date - morning reminder",
                    NotifType.reminder, NotifPriority.medium⟩ : ScheduledNotificationTime)]
                else []
              else []
          else []
        -- Sort notifications by time
        ⟨task.id, task.title, sortByTime (highNotifs ++ mediumNotifs)⟩

/-- `calculateAllNotificationSchedules`: batch helper. -/
def calculateAllNotificationSchedules (tasks : List Task) (profile : UserProfile)
    (overdueReminderCounts : String → Nat) : List NotificationSchedule :=
  ((tasks.filter (fun task => task.status ≠ "completed")).map
    (fun task => calculateNotificationSchedule task profile
      (overdueReminderCounts task.id) 0)).filter
    (fun schedule => schedule.notifications.length > 0)

/-- Per-priority counters of `getNotificationSummary`. -/
structure PriorityCounts where
  high : Nat
  medium : Nat
  low : Nat
deriving DecidableEq

/-- The summary record of `getNotificationSummary`; the string-keyed
`byType` record is modelled as a function from the closed key type. -/
structure NotificationSummary where
  total : Nat
  byPriority : PriorityCounts
  byType : NotifType → Nat

/-- `summary.byPriority[notif.priority]++`. -/
def bumpPriority (c : PriorityCounts) : NotifPriority → PriorityCounts
  | NotifPriority.high => { c with high := c.high + 1 }
  | NotifPriority.medium => { c with medium := c.medium + 1 }
  | NotifPriority.low => { c with low := c.low + 1 }

/-- Folding one notification into the summary accumulator. -/
def addNotif (s : NotificationSummary) (n : ScheduledNotificationTime) :
    NotificationSummary where
  total := s.total + 1
  byPriority := bumpPriority s.byPriority n.priority
  byType := fun t => if t = n.type then s.byType t + 1 else s.byType t

/-- `getNotificationSummary`: pure aggregation over all schedules. -/
def getNotificationSummary (schedules : List NotificationSchedule) :
    NotificationSummary :=
  schedules.foldl (fun s schedule => schedule.notifications.foldl addNotif s)
    ⟨0, ⟨0, 0, 0⟩, fun _ => 0⟩

/-- Validity of a parsed `"HH:MM"` time-of-day. -/
def validHM (t : HM) : Prop :=
  0 ≤ t.hour ∧ t.hour < 24 ∧ 0 ≤ t.minute ∧ t.minute < 60

instance (t : HM) : Decidable (validHM t) := by
  unfold validHM; infer_instance

/-- The ascending-by-`time` relation on scheduled notifications. -/
abbrev timeLE (a b : ScheduledNotificationTime) : Prop := a.time ≤ b.time

/-- The sum of all counts held by the `byType` record, across its five
possible keys. -/
def typeTotal (s : NotificationSummary) : Nat :=
  s.byType NotifType.advanceNotice + s.byType NotifType.reminder +
    s.byType NotifType.finalReminder + s.byType NotifType.overdue +
    s.byType NotifType.dailySummary

/-! ## Helper lemmas -/

theorem mem_insertSorted {x n : ScheduledNotificationTime}
    {l : List ScheduledNotificationTime} :
    x ∈ insertSorted n l ↔ x = n ∨ x ∈ l := by
  induction l with
  | nil => simp [insertSorted]
  | cons m rest ih =>
    simp only [insertSorted]
    split
    · simp [List.mem_cons]
      try tauto
    · simp [List.mem_cons, ih]
      try tauto

theorem insertSorted_pairwise {n : ScheduledNotificationTime}
    {l : List ScheduledNotificationTime} (h : l.Pairwise timeLE) :
    (insertSorted n l).Pairwise timeLE := by
  induction l with
  | nil => simp [insertSorted, timeLE]
  | cons m rest ih =>
    rw [List.pairwise_cons] at h
    obtain ⟨hm, hrest⟩ := h
    simp only [insertSorted]
    split
    · rename_i hnm
      refine List.Pairwise.cons ?_ (List.Pairwise.cons hm hrest)
      intro x hx
      rcases List.mem_cons.mp hx with rfl | hx
      · exact hnm
      · exact le_trans hnm (hm x hx)
    · rename_i hnm
      refine List.Pairwise.cons ?_ (ih hrest)
      intro x hx
      rcases mem_insertSorted.mp hx with rfl | hx
      · exact le_of_not_le hnm
      · exact hm x hx

theorem sortByTime_pairwise :
    ∀ l : List ScheduledNotificationTime, (sortByTime l).Pairwise timeLE
  | [] => by simp [sortByTime]
  | n :: rest => by
    simp only [sortByTime]
    exact insertSorted_pairwise (sortByTime_pairwise rest)

theorem sortByTime_three (a b c : ScheduledNotificationTime)
    (hab : a.time ≤ b.time) (hbc : b.time ≤ c.time) :
    sortByTime [a, b, c] = [a, b, c] := by
  simp [sortByTime, insertSorted, hab, hbc]

/-! ## Claim theorems -/

/-- C3: a completed task, or a low-priority task (regardless of due date),
always yields an empty notification list, for every profile, overdue count
and computation instant. -/
theorem completed_or_low_yields_empty (task : Task) (profile : UserProfile)
    (existingOverdueReminders : Nat) (now : Int)
    (h : task.status = "completed" ∨ task.priority = "low") :
    (calculateNotificationSchedule task profile existingOverdueReminders
      now).notifications = [] := by
  unfold calculateNotificationSchedule
  rcases h with h | h
  · simp [h]
  · split
    · rfl
    · simp [h]

theorem completed_or_low_yields_empty_witness :
    (calculateNotificationSchedule ⟨"t1", "Done", some 3000, "completed", "high", none, none⟩
      ⟨⟨9, 0⟩, ⟨17, 0⟩, none⟩ 0 600).notifications = [] :=
  completed_or_low_yields_empty _ _ _ _ (Or.inl rfl)

/-- C4: for every input, the returned notifications list is sorted
ascending by `time`, in every branch of the engine. -/
theorem schedule_sorted_by_time (task : Task) (profile : UserProfile)
    (existingOverdueReminders : Nat) (now : Int) :
    ((calculateNotificationSchedule task profile existingOverdueReminders
      now).notifications).Pairwise timeLE := by
  unfold calculateNotificationSchedule
  repeat' (first | split | simp_all [sortByTime_pairwise])

theorem foldl_addNotif_total (l : List ScheduledNotificationTime)
    (s : NotificationSummary) :
    (l.foldl addNotif s).total = s.total + l.length := by
  induction l generalizing s with
  | nil => simp
  | cons n l ih =>
    rw [List.foldl_cons, ih]
    simp [addNotif]
    omega

theorem foldl_addNotif_priority (l : List ScheduledNotificationTime)
    (s : NotificationSummary) :
    (l.foldl addNotif s).byPriority.high + (l.foldl addNotif s).byPriority.medium +
        (l.foldl addNotif s).byPriority.low =
      s.byPriority.high + s.byPriority.medium + s.byPriority.low + l.length := by
  induction l generalizing s with
  | nil => simp
  | cons n l ih =>
    rw [List.foldl_cons, ih]
    cases hp : n.priority <;> simp [addNotif, bumpPriority, hp] <;> omega

theorem foldl_addNotif_type (l : List ScheduledNotificationTime)
    (s : NotificationSummary) :
    typeTotal (l.foldl addNotif s) = typeTotal s + l.length := by
  induction l generalizing s with
  | nil => simp
  | cons n l ih =>
    rw [List.foldl_cons, ih]
    cases ht : n.type <;> simp [addNotif, typeTotal, ht] <;> omega

theorem foldl_schedules_total (schedules : List NotificationSchedule)
    (s : NotificationSummary) :
    (schedules.foldl (fun s schedule => schedule.notifications.foldl addNotif s) s).total =
      s.total + (schedules.map (fun schedule => schedule.notifications.length)).sum := by
  induction schedules generalizing s with
  | nil => simp
  | cons sc scs ih =>
    rw [List.foldl_cons, ih, foldl_addNotif_total]
    simp
    omega

theorem foldl_schedules_priority (schedules : List NotificationSchedule)
    (s : NotificationSummary) :
    (schedules.foldl (fun s schedule => schedule.notifications.foldl addNotif s)
          s).byPriority.high +
        (schedules.foldl (fun s schedule => schedule.notifications.foldl addNotif s)
          s).byPriority.medium +
        (schedules.foldl (fun s schedule => schedule.notifications.foldl addNotif s)
          s).byPriority.low =
      s.byPriority.high + s.byPriority.medium + s.byPriority.low +
        (schedules.map (fun schedule => schedule.notifications.length)).sum := by
  induction schedules generalizing s with
  | nil => simp
  | cons sc scs ih =>
    rw [List.foldl_cons, ih, foldl_addNotif_priority]
    simp
    omega

theorem foldl_schedules_type (schedules : List NotificationSchedule)
    (s : NotificationSummary) :
    typeTotal (schedules.foldl
        (fun s schedule => schedule.notifications.foldl addNotif s) s) =
      typeTotal s + (schedules.map (fun schedule => schedule.notifications.length)).sum := by
  induction schedules generalizing s with
  | nil => simp
  | cons sc scs ih =>
    rw [List.foldl_cons, ih, foldl_addNotif_type]
    simp
    omega

/-- C9: for every list of schedules, the summary's `total` equals the sum of
the lengths of the notifications lists, equals the sum of the three
`byPriority` counters, and equals the sum of all counts in `byType`. -/
theorem getNotificationSummary_conservation (schedules : List NotificationSchedule) :
    (getNotificationSummary schedules).total =
        (schedules.map (fun schedule => schedule.notifications.length)).sum ∧
      (getNotificationSummary schedules).total =
        (getNotificationSummary schedules).byPriority.high +
          (getNotificationSummary schedules).byPriority.medium +
          (getNotificationSummary schedules).byPriority.low ∧
      (getNotificationSummary schedules).total =
        (getNotificationSummary schedules).byType NotifType.advanceNotice +
          (getNotificationSummary schedules).byType NotifType.reminder +
          (getNotificationSummary schedules).byType NotifType.finalReminder +
          (getNotificationSummary schedules).byType NotifType.overdue +
          (getNotificationSummary schedules).byType NotifType.dailySummary := by
  unfold getNotificationSummary
  have ht := foldl_schedules_total schedules ⟨0, ⟨0, 0, 0⟩, fun _ => 0⟩
  have hp := foldl_schedules_priority schedules ⟨0, ⟨0, 0, 0⟩, fun _ => 0⟩
  have hty := foldl_schedules_type schedules ⟨0, ⟨0, 0, 0⟩, fun _ => 0⟩
  unfold typeTotal at hty
  simp at ht hp hty
  refine ⟨?_, ?_, ?_⟩ <;> omega

/-- C6 counterexample: an estimated duration of 0 minutes is ≤ 30, yet the
lead time is 15 (JavaScript falsiness treats 0 like unset), not the 10 the
claim requires. -/
theorem leadTime_zero_duration_counterexample :
    getLeadTimeForDuration (some 0) = 15 ∧ getLeadTimeForDuration (some 0) ≠ 10 ∧
      (0 : Int) ≤ 30 := by
  decide

/-- C6 (amended): the final-reminder lead time is 15 minutes when the
duration is unset or 0 (both falsy), 10 minutes for every nonzero duration
≤ 30, 15 minutes in 31–59, 20 minutes in 60–119, and 30 minutes ≥ 120. -/
theorem getLeadTimeForDuration_table :
    getLeadTimeForDuration none = 15 ∧
      getLeadTimeForDuration (some 0) = 15 ∧
      (∀ d : Int, d ≠ 0 → d ≤ 30 → getLeadTimeForDuration (some d) = 10) ∧
      (∀ d : Int, 31 ≤ d → d ≤ 59 → getLeadTimeForDuration (some d) = 15) ∧
      (∀ d : Int, 60 ≤ d → d ≤ 119 → getLeadTimeForDuration (some d) = 20) ∧
      (∀ d : Int, 120 ≤ d → getLeadTimeForDuration (some d) = 30) := by
  refine ⟨rfl, rfl, ?_, ?_, ?_, ?_⟩ <;>
    (intros; simp only [getLeadTimeForDuration]; repeat' split) <;> omega

theorem getLeadTimeForDuration_table_witness :
    getLeadTimeForDuration (some 45) = 15 :=
  getLeadTimeForDuration_table.2.2.2.1 45 (by decide) (by decide)

/-- C7: work-hours clamping applies exactly to work tasks; an hour before
the start hour snaps forward to the start time-of-day, an hour after the
end hour snaps back to the end time-of-day, anything else is unchanged, and
the calendar date is always preserved (for validly parsed HH:MM bounds). -/
theorem adjustToWorkHours_clamping (date : Int) (profile : UserProfile)
    (cat : Option String)
    (hs : validHM profile.work_hours_start) (he : validHM profile.work_hours_end) :
    (cat ≠ some "work" → adjustToWorkHours date profile (cat == some "work") = date) ∧
      (hourOf date < profile.work_hours_start.hour →
        adjustToWorkHours date profile true =
          setHM date profile.work_hours_start.hour profile.work_hours_start.minute) ∧
      (¬ hourOf date < profile.work_hours_start.hour →
        hourOf date > profile.work_hours_end.hour →
        adjustToWorkHours date profile true =
          setHM date profile.work_hours_end.hour profile.work_hours_end.minute) ∧
      (¬ hourOf date < profile.work_hours_start.hour →
        ¬ hourOf date > profile.work_hours_end.hour →
        adjustToWorkHours date profile true = date) ∧
      (∀ b : Bool, dayOf (adjustToWorkHours date profile b) = dayOf date) := by
  obtain ⟨hs1, hs2, hs3, hs4⟩ := hs
  obtain ⟨he1, he2, he3, he4⟩ := he
  refine ⟨?_, ?_, ?_, ?_, ?_⟩
  · intro h
    have hb : (cat == some "work") = false := by
      simpa using h
    simp [adjustToWorkHours, hb]
  · intro h
    simp [adjustToWorkHours, h]
  · intro h1 h2
    simp [adjustToWorkHours, h1, h2]
  · intro h1 h2
    simp [adjustToWorkHours, h1, h2]
  · intro b
    cases b with
    | false => simp [adjustToWorkHours]
    | true =>
      unfold adjustToWorkHours
      dsimp only
      split
      · rfl
      · split
        · unfold setHM dayOf
          omega
        · split
          · unfold setHM dayOf
            omega
          · rfl

theorem adjustToWorkHours_clamping_witness :
    adjustToWorkHours 100 ⟨⟨9, 0⟩, ⟨17, 0⟩, none⟩ true = setHM 100 9 0 :=
  (adjustToWorkHours_clamping 100 ⟨⟨9, 0⟩, ⟨17, 0⟩, none⟩ (some "home") (by decide)
    (by decide)).2.1 (by decide)

/-- C2 counterexample: a medium-priority task overdue by 2 days (due day 8,
now day 10 at 10:00) with `existingOverdueReminders = 3` still yields one
overdue notification — the cap of 3 only guards the high-priority branch. -/
theorem overdue_medium_ignores_cap_counterexample :
    (calculateNotificationSchedule ⟨"t1", "Report", some 11520, "pending", "medium",
        none, none⟩ ⟨⟨9, 0⟩, ⟨17, 0⟩, none⟩ 3 15000).notifications =
      [⟨16380, "Overdue medium priority - daily reminder", NotifType.overdue,
        NotifPriority.medium⟩] := by
  decide

/-- C2 (amended): for every HIGH-priority overdue task with
`existingOverdueReminders = 3`, the schedule is empty (the per-day cap of 3
repeated overdue alerts applies to the high-priority branch only). -/
theorem overdue_high_cap_reached_empty (task : Task) (profile : UserProfile)
    (now d : Int) (hdue : task.due_date = some d)
    (hover : startOfDay d < startOfDay now)
    (hstatus : task.status ≠ "completed") (hpri : task.priority = "high") :
    (calculateNotificationSchedule task profile 3 now).notifications = [] := by
  unfold calculateNotificationSchedule
  simp [hdue, hpri, hstatus, hover]

theorem overdue_high_cap_reached_empty_witness :
    (calculateNotificationSchedule ⟨"t1", "Report", some 11520, "pending", "high",
        none, some "work"⟩ ⟨⟨9, 0⟩, ⟨17, 0⟩, none⟩ 3 15000).notifications = [] :=
  overdue_high_cap_reached_empty _ _ 15000 11520 rfl (by decide) (by decide) rfl

/-- C8: a non-completed task without a due date yields exactly one
daily-summary at the clamped peak-energy start hour of the day after `now`
iff it is high priority, in category "work", and the clamped instant is
still in the future; a high-priority non-"work" task and every
medium-priority task yield nothing. -/
theorem no_due_date_schedule (task : Task) (profile : UserProfile)
    (existingOverdueReminders : Nat) (now : Int)
    (hstatus : task.status ≠ "completed") (hdue : task.due_date = none) :
    (task.priority = "high" → task.category = some "work" →
      (calculateNotificationSchedule task profile existingOverdueReminders
          now).notifications =
        (if adjustToWorkHours (setHM (now + minutesPerDay)
              (getPeakEnergyHours profile.peak_energy_time).start 0) profile true > now then
          [⟨adjustToWorkHours (setHM (now + minutesPerDay)
              (getPeakEnergyHours profile.peak_energy_time).start 0) profile true,
            "High priority task without deadline - peak energy reminder",
            NotifType.dailySummary, NotifPriority.high⟩]
         else [])) ∧
    (task.priority = "high" → ¬ task.category = some "work" →
      (calculateNotificationSchedule task profile existingOverdueReminders
        now).notifications = []) ∧
    (task.priority = "medium" →
      (calculateNotificationSchedule task profile existingOverdueReminders
        now).notifications = []) := by
  refine ⟨?_, ?_, ?_⟩
  · intro hpri hcat
    unfold calculateNotificationSchedule
    simp [hdue, hpri, hcat, hstatus]
  · intro hpri hcat
    unfold calculateNotificationSchedule
    simp [hdue, hpri, hcat, hstatus]
  · intro hpri
    unfold calculateNotificationSchedule
    simp [hdue, hpri, hstatus]

theorem no_due_date_schedule_witness :
    (calculateNotificationSchedule ⟨"t1", "Plan", none, "pending", "high", none,
        some "work"⟩ ⟨⟨9, 0⟩, ⟨17, 0⟩, none⟩ 0 600).notifications =
      [⟨1980, "High priority task without deadline - peak energy reminder",
        NotifType.dailySummary, NotifPriority.high⟩] :=
  ((no_due_date_schedule ⟨"t1", "Plan", none, "pending", "high", none, some "work"⟩
    ⟨⟨9, 0⟩, ⟨17, 0⟩, none⟩ 0 600 (by decide) rfl).1 rfl rfl).trans (by decide)

/-- C10: when `peak_energy_time` is absent or unrecognised, the default
peak window starts at hour 9, and a high-priority undated "work" task gets
its daily-summary candidate placed at 09:00 on the day after `now` before
work-hours clamping. -/
theorem default_peak_energy_window (task : Task) (profile : UserProfile)
    (existingOverdueReminders : Nat) (now : Int)
    (hpeak : ∀ s, profile.peak_energy_time = some s →
      s ≠ "morning" ∧ s ≠ "afternoon" ∧ s ≠ "evening")
    (hstatus : task.status ≠ "completed") (hpri : task.priority = "high")
    (hcat : task.category = some "work") (hdue : task.due_date = none) :
    getPeakEnergyHours profile.peak_energy_time = ⟨9, 12⟩ ∧
    dayOf (setHM (now + minutesPerDay) 9 0) = dayOf now + 1 ∧
    hourOf (setHM (now + minutesPerDay) 9 0) = 9 ∧
    minuteOf (setHM (now + minutesPerDay) 9 0) = 0 ∧
    (calculateNotificationSchedule task profile existingOverdueReminders
        now).notifications =
      (if adjustToWorkHours (setHM (now + minutesPerDay) 9 0) profile true > now then
        [⟨adjustToWorkHours (setHM (now + minutesPerDay) 9 0) profile true,
          "High priority task without deadline - peak energy reminder",
          NotifType.dailySummary, NotifPriority.high⟩]
       else []) := by
  have hpk : getPeakEnergyHours profile.peak_energy_time = ⟨9, 12⟩ := by
    unfold getPeakEnergyHours
    cases hpe : profile.peak_energy_time with
    | none => simp
    | some s =>
      obtain ⟨h1, h2, h3⟩ := hpeak s hpe
      simp [h1, h2, h3]
  refine ⟨hpk, ?_, ?_, ?_, ?_⟩
  · unfold setHM dayOf minutesPerDay
    omega
  · unfold setHM hourOf minuteOfDay dayOf minutesPerDay
    omega
  · unfold setHM minuteOf minuteOfDay dayOf minutesPerDay
    omega
  · unfold calculateNotificationSchedule
    simp [hdue, hpri, hcat, hstatus, hpk]

theorem default_peak_energy_window_witness :
    (calculateNotificationSchedule ⟨"t1", "Plan", none, "pending", "high", none,
        some "work"⟩ ⟨⟨9, 0⟩, ⟨17, 0⟩, some "night"⟩ 0 600).notifications =
      [⟨1980, "High priority task without deadline - peak energy reminder",
        NotifType.dailySummary, NotifPriority.high⟩] :=
  ((default_peak_energy_window ⟨"t1", "Plan", none, "pending", "high", none, some "work"⟩
      ⟨⟨9, 0⟩, ⟨17, 0⟩, some "night"⟩ 0 600
      (by
        intro s hs
        injection hs with h
        subst h
        exact ⟨by decide, by decide, by decide⟩)
      (by decide) rfl rfl rfl).2.2.2.2).trans (by decide)

/-- C5 counterexample: a high-priority "work" task due at day 5, 03:40 with
duration 45 and work hours 09:00–17:00, computed at day 4, 03:00 (before
`T - 24h`, all clamped candidates future), yields the three entries in the
order advance-notice, final-reminder, reminder — not the claimed
advance-notice, reminder, final-reminder order, because clamping the 2-hour
reminder forward to 09:00 pushes it past the final reminder. -/
theorem high_specific_time_order_counterexample :
    ((calculateNotificationSchedule ⟨"t1", "Report", some 7420, "pending", "high",
        some 45, some "work"⟩ ⟨⟨9, 0⟩, ⟨17, 0⟩, none⟩ 0 5940).notifications.map
      (fun n => (n.type, n.time))) =
      [(NotifType.advanceNotice, 6300), (NotifType.finalReminder, 7405),
        (NotifType.reminder, 7740)] ∧
      (5940 : Int) < 7420 - 24 * 60 := by
  decide

/-- C5 (amended): for a high-priority, non-overdue "work" task with a
specific due time `T`, duration 45 and work hours 09:00–17:00, with `now`
strictly before `T - 24h` and the clamped candidates in the future, the
schedule is exactly the advance-notice at the clamped `T - 24h`, the
reminder at the clamped `T - 2h`, and the final-reminder at `T - 15min`, in
that order — provided the three candidate instants are ascending
(clamping can otherwise reorder them). -/
theorem high_specific_time_three_notifications (task : Task) (profile : UserProfile)
    (existingOverdueReminders : Nat) (now T : Int)
    (hstatus : task.status ≠ "completed") (hpri : task.priority = "high")
    (hcat : task.category = some "work") (hdur : task.estimated_duration = some 45)
    (hdue : task.due_date = some T) (hspec : hasSpecificTime T = true)
    (hws : profile.work_hours_start = ⟨9, 0⟩) (hwe : profile.work_hours_end = ⟨17, 0⟩)
    (hnow : now < T - 24 * 60)
    (hfut1 : adjustToWorkHours (T - 24 * 60) profile true > now)
    (hfut2 : adjustToWorkHours (T - 2 * 60) profile true > now)
    (hord1 : adjustToWorkHours (T - 24 * 60) profile true ≤
      adjustToWorkHours (T - 2 * 60) profile true)
    (hord2 : adjustToWorkHours (T - 2 * 60) profile true ≤ T - 15) :
    (calculateNotificationSchedule task profile existingOverdueReminders
        now).notifications =
      [⟨adjustToWorkHours (T - 24 * 60) profile true,
        "24hr advance notice for high priority", NotifType.advanceNotice,
        NotifPriority.high⟩,
       ⟨adjustToWorkHours (T - 2 * 60) profile true,
        "2hr reminder before scheduled time", NotifType.reminder, NotifPriority.high⟩,
       ⟨T - 15, "15min final reminder", NotifType.finalReminder, NotifPriority.high⟩] := by
  have hnotover : ¬ startOfDay T < startOfDay now := by
    unfold startOfDay dayOf
    omega
  have hnow' : now < T - 1440 := by omega
  have h2 : now < T - 120 := by omega
  have h3 : now < T - 15 := by omega
  have hlt : getLeadTimeForDuration (some 45) = 15 := rfl
  have hts : toString (15 : Int) ++ "min final reminder" = "15min final reminder" := rfl
  unfold calculateNotificationSchedule
  simp [hdue, hstatus, hpri, hcat, hdur, hspec, hnotover, hnow', h2, h3, hlt, hts]
  apply sortByTime_three
  · exact hord1
  · exact hord2

theorem high_specific_time_three_notifications_witness :
    (calculateNotificationSchedule ⟨"t1", "Report", some 3780, "pending", "high",
        some 45, some "work"⟩ ⟨⟨9, 0⟩, ⟨17, 0⟩, none⟩ 0 2040).notifications =
      [⟨2340, "24hr advance notice for high priority", NotifType.advanceNotice,
        NotifPriority.high⟩,
       ⟨3660, "2hr reminder before scheduled time", NotifType.reminder,
        NotifPriority.high⟩,
       ⟨3765, "15min final reminder", NotifType.finalReminder, NotifPriority.high⟩] :=
  (high_specific_time_three_notifications
    ⟨"t1", "Report", some 3780, "pending", "high", some 45, some "work"⟩
    ⟨⟨9, 0⟩, ⟨17, 0⟩, none⟩ 0 2040 3780 (by decide) rfl rfl rfl rfl (by decide)
    rfl rfl (by decide) (by decide) (by decide) (by decide) (by decide)).trans
    (by decide)

/-- C1 (code-bug evidence): at a concrete input — high-priority "work" task
due day 1 at 18:30, work hours 09:00–17:00, now day 0 at 17:30 — the engine
emits the 24-hour advance notice at day 0, 17:00 (t = 1020), which is not
in the future relative to now (t = 1050): the specific-time branch checks
the future condition before clamping, unlike every other branch. -/
theorem emitted_time_in_past_at_input :
    ((calculateNotificationSchedule ⟨"t1", "Report", some 2550, "pending", "high",
        none, some "work"⟩ ⟨⟨9, 0⟩, ⟨17, 0⟩, none⟩ 0 1050).notifications.map
      (fun n => n.time)) = [1020, 2430, 2535] ∧ (1020 : Int) ≤ 1050 := by
  decide

end NotificationEngine
